import Mathlib

/-!
Verification of the Superpowers orchestration shim
(`.agent/skills/superpowers-workflow/scripts/{config.py, execute_task.py}`).

The Python code is shallowly embedded: paths become lists of components,
the file system becomes a pair of lookup functions, the single subprocess
spawned by a backend becomes an oracle value `Except String ProcOutcome`
(`Except.error e` models the spawn / read / timeout raising an exception
with message `e`), and side effects (opening the log file, spawning a
subprocess) are recorded in an event trace returned alongside the result.
The Python json library is a parameter (`parse` / `dumps`) wherever the
scripts call it.
-/

/-- Model of a `pathlib.Path`: either absolute (list of components from the
filesystem root) or relative. -/
inductive PyPath where
  | abs (comps : List String)
  | rel (comps : List String)
deriving DecidableEq

/-- `p / name` for a single component. -/
def PyPath.child : PyPath → String → PyPath
  | .abs cs, n => .abs (cs ++ [n])
  | .rel cs, n => .rel (cs ++ [n])

/-- `p / "a/b/c"`: joining a multi-component suffix. -/
def PyPath.join : PyPath → List String → PyPath
  | .abs cs, ns => .abs (cs ++ ns)
  | .rel cs, ns => .rel (cs ++ ns)

/-- `p.parent`; the parent of the filesystem root is itself, as in pathlib. -/
def PyPath.parent : PyPath → PyPath
  | .abs cs => .abs cs.dropLast
  | .rel cs => .rel cs.dropLast

/-- `str(p)` rendering (POSIX style). -/
def PyPath.toStr : PyPath → String
  | .abs cs => "/" ++ String.intercalate "/" cs
  | .rel cs => String.intercalate "/" cs

/-- Whether the path is relative. -/
def PyPath.isRelative : PyPath → Bool
  | .abs _ => false
  | .rel _ => true

/-- `p.ancestor n` = `p.parent` applied `n` times (`ancestor 0 = p`). -/
def PyPath.ancestor (p : PyPath) : Nat → PyPath
  | 0 => p
  | n + 1 => (p.ancestor n).parent

/-- Model of the file system: `ex` answers `Path.exists()` (files or
directories), `read` answers `Path.read_text()` (`none` when the path is
missing or unreadable). -/
structure FS where
  ex : PyPath → Bool
  read : PyPath → Option String

/-- Outcome of the one subprocess a backend spawns: its exit code and the
output text the script captures from it. -/
structure ProcOutcome where
  returncode : Int
  out : String
deriving DecidableEq

/-- Observable side effects of a call: opening the log file with
`open(log_file, "w")`, and spawning a subprocess whose command word is
recorded (`"gemini"` or `"claude"`). -/
inductive Event where
  | openLog
  | spawn (cmd : String)
deriving DecidableEq

/-- `e` is a spawn event. -/
def Event.isSpawn : Event → Bool
  | .spawn _ => true
  | .openLog => false

/-- The dictionary a backend function returns.  The missing-skill early
return builds a dict with only `success` and `error` keys, so `output` and
`full_log` are `Option`s (`none` = key absent). -/
structure BackendResult where
  success : Bool
  output : Option String
  error : String
  full_log : Option String
deriving DecidableEq

/-- The dictionary `execute_task` returns (wall-clock `duration_s` is not
modelled). -/
structure ExecResult where
  success : Bool
  output : String
  error : String
  log_file : String
  subagent_id : String
  backend : String
deriving DecidableEq

/-- The sentinel line opening the delimited result. -/
def START_MARKER : String := "---SUBAGENT-RESULT-START---"

/-- The sentinel line closing the delimited result. -/
def END_MARKER : String := "---SUBAGENT-RESULT-END---"

/-- The ASCII whitespace stripped by Python `str.strip()`. -/
def isPyWhitespace (c : Char) : Bool :=
  c = ' ' || c = '\t' || c = '\n' || c = '\r' || c = '\x0b' || c = '\x0c'

/-- Python `s.strip()`: drop leading and trailing whitespace. -/
def pyStrip (s : String) : String :=
  String.mk (((s.toList.dropWhile isPyWhitespace).reverse.dropWhile
    isPyWhitespace).reverse)

/-- Python `s.split(m, 1)` on character lists: `some (before, after)` splits
around the first occurrence of `m`, `none` means `m` does not occur
(for nonempty `m`, which is the only use). -/
def findSplit (m : List Char) : List Char → Option (List Char × List Char)
  | [] => if m.isEmpty then some ([], []) else none
  | c :: cs =>
    if m.isPrefixOf (c :: cs) then some ([], (c :: cs).drop m.length)
    else
      match findSplit m cs with
      | some (pre, post) => some (c :: pre, post)
      | none => none

/-- Lines 145–151 of `execute_task.py` (`run_gemini_backend`): if the start
marker occurs in `output_str`, split once on it, split the remainder once on
the end marker, and strip; otherwise keep `output_str` whole. -/
def extract_result (output_str : String) : String :=
  match findSplit START_MARKER.toList output_str.toList with
  | none => output_str
  | some (_, afterStart) =>
    match findSplit END_MARKER.toList afterStart with
    | some (mid, _) => pyStrip (String.mk mid)
    | none => pyStrip (String.mk afterStart)

/-- `repo_root / f".agent/skills/superpowers-skill/SKILL.md"`. -/
def skill_file_path (repo_root : PyPath) (skill : String) : PyPath :=
  repo_root.join [".agent", "skills", "superpowers-" ++ skill, "SKILL.md"]

/-- `load_skill_instructions` (`execute_task.py` lines 35–39): empty string
when the file does not exist, its text otherwise. -/
def load_skill_instructions (fs : FS) (skill_path : PyPath) : String :=
  match fs.read skill_path with
  | none => ""
  | some s => s

/-- `run_gemini_backend` (`execute_task.py` lines 42–158).  `proc` is the
outcome of the one `gemini` subprocess (`Except.error e`: spawning/reading
it raised exception `e`; streaming and background modes both yield the
captured text as `proc.out`).  Returns the backend dict (or the escaped
exception) together with the event trace. -/
def run_gemini_backend (fs : FS) (proc : Except String ProcOutcome)
    (skill task : String) (repo_root : PyPath) (yolo : Bool)
    (stream_output : Bool) : Except String BackendResult × List Event :=
  if load_skill_instructions fs (skill_file_path repo_root skill) = "" then
    (Except.ok { success := false, output := none,
                 error := "Skill not found: " ++ (skill_file_path repo_root skill).toStr,
                 full_log := none }, [])
  else
    match proc with
    | Except.error e => (Except.error e, [Event.openLog])
    | Except.ok p =>
      (Except.ok { success := p.returncode == 0,
                   output := some (extract_result p.out),
                   error := if p.returncode == 0 then "" else "Process failed",
                   full_log := some p.out },
       [Event.openLog, Event.spawn "gemini"])

/-- `run_claude_backend` (`execute_task.py` lines 161–241).  Identical shape
to the Gemini backend except that the output is returned verbatim: the
source performs no marker extraction here. -/
def run_claude_backend (fs : FS) (proc : Except String ProcOutcome)
    (skill task : String) (repo_root : PyPath) (yolo : Bool)
    (stream_output : Bool) : Except String BackendResult × List Event :=
  if load_skill_instructions fs (skill_file_path repo_root skill) = "" then
    (Except.ok { success := false, output := none,
                 error := "Skill not found: " ++ (skill_file_path repo_root skill).toStr,
                 full_log := none }, [])
  else
    match proc with
    | Except.error e => (Except.error e, [Event.openLog])
    | Except.ok p =>
      (Except.ok { success := p.returncode == 0,
                   output := some p.out,
                   error := if p.returncode == 0 then "" else "Process failed",
                   full_log := some p.out },
       [Event.openLog, Event.spawn "claude"])

/-- A configuration mapping: string keys to string values (the one
recognised key holds the backend name). -/
abbrev Config := List (String × String)

/-- The hardcoded default configuration. -/
def default_config : Config := [("execution_backend", "gemini")]

/-- `load_config` (`config.py` lines 25–39): read `root/config.json`; a
missing/unreadable file or a parse failure yields the default (the read
exception and the parse exception are both swallowed by the same
`except`). `parse` embeds `json.loads` (`none` = raises). -/
def load_config (parse : String → Option Config) (fs : FS)
    (root_path : PyPath) : Config :=
  match fs.read (root_path.child "config.json") with
  | none => default_config
  | some contents =>
    match parse contents with
    | some cfg => cfg
    | none => default_config

/-- `save_config` (`config.py` lines 42–50): `mkdir(parents=True)` on the
parent then overwrite `root/config.json` with `dumps cfg` (`dumps` embeds
`json.dumps(·, indent=2)`). -/
def save_config (dumps : Config → String) (cfg : Config) (fs : FS)
    (root_path : PyPath) : FS :=
  { ex := fun p => p = root_path || fs.ex p,
    read := fun p =>
      if p = root_path.child "config.json" then some (dumps cfg) else fs.read p }

/-- Loop body of `find_agent_root` (`config.py` lines 10–22), fuel = the
remaining iterations of `for _ in range(10)`; exhausted fuel or reaching the
filesystem root falls through to `return Path(".agent")`. -/
def find_agent_root_go (ex : PyPath → Bool) : Nat → PyPath → PyPath
  | 0, _ => .rel [".agent"]
  | n + 1, curr =>
    if ex (curr.child ".agent") then curr.child ".agent"
    else if ex (curr.child "skills") && ex (curr.parent.child ".agent") then
      curr.parent.child ".agent"
    else if curr.parent = curr then .rel [".agent"]
    else find_agent_root_go ex n curr.parent

/-- `find_agent_root` (`config.py` lines 10–22); `start` is already
resolved (absolute). -/
def find_agent_root (ex : PyPath → Bool) (start : PyPath) : PyPath :=
  find_agent_root_go ex 10 start

/-- Loop body of `find_repo_root` (`execute_task.py` lines 23–32); when
nothing is found the function returns `Path.cwd()`, passed in as `cwd`. -/
def find_repo_root_go (ex : PyPath → Bool) (cwd : PyPath) : Nat → PyPath → PyPath
  | 0, _ => cwd
  | n + 1, curr =>
    if ex (curr.child ".agent") then curr
    else if curr.parent = curr then cwd
    else find_repo_root_go ex cwd n curr.parent

/-- `find_repo_root` (`execute_task.py` lines 23–32). -/
def find_repo_root (ex : PyPath → Bool) (start cwd : PyPath) : PyPath :=
  find_repo_root_go ex cwd 10 start

/-- `cfg.get("execution_backend", "gemini")` on the configuration loaded
from `repo_root / ".agent"` (`execute_task.py` lines 256–257). -/
def backend_of (parse : String → Option Config) (fs : FS)
    (repo_root : PyPath) : String :=
  ((load_config parse fs (repo_root.child ".agent")).lookup
      "execution_backend").getD "gemini"

/-- The log file path built on `execute_task.py` lines 262–264. -/
def log_file_of (repo_root : PyPath) (backend skill timestamp subagent_id : String) :
    PyPath :=
  repo_root.join ["artifacts", "superpowers", "subagents",
    backend ++ "-" ++ skill ++ "-" ++ timestamp ++ "-" ++ subagent_id ++ ".log"]

/-- `execute_task` (`execute_task.py` lines 244–300).

`prepExc` models an exception raised while preparing the log (step 3,
e.g. `log_dir.mkdir` failing); that code runs *before* the `try:` on
line 272, so such an exception escapes to the caller (`Except.error`).
The `try` block covers only the backend dispatch and the construction of
the return dict; an exception there (a failed spawn, modelled by
`proc = Except.error e`, or the `KeyError` from `result["output"]` when the
backend's missing-skill dict has no `output` key — `str(KeyError("output"))`
is `"'output'"`) is caught and converted to a failure dict.
`timestamp` and `subagent_id` stand for `time.strftime(...)` and the fresh
random identifier. -/
def execute_task (fs : FS) (parse : String → Option Config)
    (proc : Except String ProcOutcome) (prepExc : Option String)
    (timestamp subagent_id : String) (skill task : String)
    (repo_root : PyPath) (yolo : Bool) (background : Bool) :
    Except String ExecResult × List Event :=
  let backend := backend_of parse fs repo_root
  let log_file := log_file_of repo_root backend skill timestamp subagent_id
  match prepExc with
  | some e => (Except.error e, [])
  | none =>
    let br :=
      if backend = "claude" then
        run_claude_backend fs proc skill task repo_root yolo (!background)
      else
        run_gemini_backend fs proc skill task repo_root yolo (!background)
    match br.1 with
    | Except.error e =>
      (Except.ok { success := false, output := "", error := e,
                   log_file := log_file.toStr, subagent_id := subagent_id,
                   backend := backend }, br.2)
    | Except.ok r =>
      match r.output with
      | none =>
        (Except.ok { success := false, output := "", error := "'output'",
                     log_file := log_file.toStr, subagent_id := subagent_id,
                     backend := backend }, br.2)
      | some o =>
        (Except.ok { success := r.success, output := o, error := r.error,
                     log_file := log_file.toStr, subagent_id := subagent_id,
                     backend := backend }, br.2)

/-- A file system with no entries at all. -/
def emptyFS : FS := { ex := fun _ => false, read := fun _ => none }

/-- A file system holding exactly one file. -/
def fsWithFile (path : PyPath) (contents : String) : FS :=
  { ex := fun p => p = path, read := fun p => if p = path then some contents else none }

/-- `json.dumps(cfg, indent=2)` for a flat string-to-string mapping:
`"\x7b\x7d"` for the empty mapping, otherwise one two-space-indented
`"key": "value"` line per entry. -/
def miniDumps (cfg : Config) : String :=
  match cfg with
  | [] => "\x7b\x7d"
  | _ =>
    "\x7b\n" ++ String.intercalate ",\n"
      (cfg.map fun kv => "  \"" ++ kv.1 ++ "\": \"" ++ kv.2 ++ "\"") ++ "\n\x7d"

/-- A minimal instantiation of the `json.loads` parameter: it accepts the
empty JSON object and rejects everything else (used by witnesses; the
claim-level theorems quantify over the parser). -/
def miniParse (s : String) : Option Config :=
  if s = "\x7b\x7d" then some [] else none

/-- The `success` field of an `Except.ok` backend dict. -/
def okSuccess : Except String BackendResult → Option Bool
  | Except.ok r => some r.success
  | Except.error _ => none

/-- The `output` field of an `Except.ok` backend dict. -/
def okOutput : Except String BackendResult → Option String
  | Except.ok r => r.output
  | Except.error _ => none

/-- The `error` field of an `Except.ok` backend dict. -/
def okError : Except String BackendResult → Option String
  | Except.ok r => some r.error
  | Except.error _ => none

/-- Witness fixtures: concrete repositories, skill files and subprocess
outcomes used to instantiate the claim theorems. -/
def c1Root : PyPath := PyPath.abs ["repo1"]

def c1FS : FS := fsWithFile (skill_file_path c1Root "workflow") "Do the workflow."

def c1Proc : ProcOutcome :=
  { returncode := 0,
    out := "noise\n---SUBAGENT-RESULT-START---\nDONE\n---SUBAGENT-RESULT-END---\nmore noise" }

def c2Root : PyPath := PyPath.abs ["repo2"]

def c3Root : PyPath := PyPath.abs ["repo3"]

def c3FS : FS := fsWithFile (skill_file_path c3Root "workflow") "Plan the work."

def c5Root : PyPath := PyPath.abs ["repo5"]

def c5FS : FS := fsWithFile (skill_file_path c5Root "brainstorm") "Brainstorm hard."

def c6Root : PyPath := PyPath.abs ["repo6", ".agent"]

def c6FS : FS := fsWithFile (c6Root.child "config.json") "not json"

def c7Root : PyPath := PyPath.abs ["repo7", ".agent"]

def c9ex : PyPath → Bool := fun p => p == PyPath.abs ["a", ".agent"]

def c10Root : PyPath := PyPath.abs ["repo10"]

def c10FS : FS :=
  { ex := fun _ => false,
    read := fun p =>
      if p = skill_file_path c10Root "workflow" then some "Do the workflow."
      else if p = (c10Root.child ".agent").child "config.json" then some "irrelevant"
      else none }

/-- A `json.loads` instantiation that yields a configuration whose backend
name is outside the documented enum. -/
def c10Parse : String → Option Config := fun _ => some [("execution_backend", "foo")]

def c2Proc : ProcOutcome := { returncode := 0, out := "unused" }

def c3Proc : ProcOutcome := { returncode := 0, out := "fine" }

def c4Root : PyPath := PyPath.abs ["repo4"]

def c4FS : FS := fsWithFile (skill_file_path c4Root "planner") "Plan."

def c4Proc : ProcOutcome := { returncode := 0, out := "x" }

def c8Root : PyPath := PyPath.abs ["repo8"]

def c8FS : FS := fsWithFile (skill_file_path c8Root "writer") "Write."

def c8Proc : ProcOutcome := { returncode := 0, out := "y" }

def c10Proc : ProcOutcome := { returncode := 0, out := "hello" }

/-! ### Helper lemmas -/

theorem isPrefixOf_self_append (m rest : List Char) :
    m.isPrefixOf (m ++ rest) = true := by
  induction m with
  | nil => simp [List.isPrefixOf]
  | cons c cs ih => simp [List.isPrefixOf, ih]

/-- Splitting once on a marker whose first occurrence starts right after
`pre` yields `(pre, rest)`, exactly like Python `s.split(m, 1)`. -/
theorem findSplit_marker (m pre rest : List Char)
    (h : ∀ i, i < pre.length → m.isPrefixOf ((pre ++ (m ++ rest)).drop i) = false) :
    findSplit m (pre ++ (m ++ rest)) = some (pre, rest) := by
  induction pre with
  | nil =>
    simp only [List.nil_append]
    match m with
    | [] =>
      cases rest with
      | nil => simp [findSplit]
      | cons c cs => simp [findSplit, List.isPrefixOf]
    | c :: cs =>
      have hpre : (c :: cs).isPrefixOf ((c :: cs) ++ rest) = true :=
        isPrefixOf_self_append _ _
      rw [List.cons_append, findSplit, ← List.cons_append, hpre]
      simp [List.drop_left]
  | cons a pre ih =>
    have h0 := h 0 (by simp)
    simp only [List.drop_zero] at h0
    have ih' := ih (fun i hi => by
      simpa [List.drop_succ_cons] using h (i + 1) (by simpa using Nat.succ_lt_succ hi))
    rw [List.cons_append] at h0
    rw [List.cons_append, findSplit, h0]
    simp [ih']

/-- A nonempty marker that occurs nowhere in `l` is not found. -/
theorem findSplit_none (m : List Char) (hm : m ≠ []) :
    ∀ l : List Char, (∀ i, m.isPrefixOf (l.drop i) = false) → findSplit m l = none := by
  intro l
  induction l with
  | nil =>
    intro _
    cases m with
    | nil => exact absurd rfl hm
    | cons c cs => simp [findSplit]
  | cons c cs ih =>
    intro h
    have h0 := h 0
    simp only [List.drop_zero] at h0
    rw [findSplit, h0]
    simp [ih (fun i => by simpa [List.drop_succ_cons] using h (i + 1))]

theorem ancestor_succ_parent (p : PyPath) (n : Nat) :
    p.ancestor (n + 1) = p.parent.ancestor n := by
  induction n with
  | zero => rfl
  | succ k ih =>
    show (p.ancestor (k + 1)).parent = (p.parent.ancestor k).parent
    rw [ih]

theorem ancestor_of_fixed (p : PyPath) (hp : p.parent = p) :
    ∀ n, p.ancestor n = p := by
  intro n
  induction n with
  | zero => rfl
  | succ k ih => show (p.ancestor k).parent = p; rw [ih, hp]

theorem find_repo_root_go_fallback (ex : PyPath → Bool) (cwd : PyPath) :
    ∀ n curr, (∀ i, i < n → ex ((curr.ancestor i).child ".agent") = false) →
    find_repo_root_go ex cwd n curr = cwd := by
  intro n
  induction n with
  | zero => intro curr _; rfl
  | succ k ih =>
    intro curr h
    have h0 := h 0 (Nat.succ_pos k)
    simp only [PyPath.ancestor] at h0
    rw [find_repo_root_go, h0]
    simp only [Bool.false_eq_true, if_false]
    by_cases hp : curr.parent = curr
    · simp [hp]
    · simp only [hp, if_false]
      exact ih curr.parent (fun i hi => by
        have := h (i + 1) (Nat.succ_lt_succ hi)
        rwa [ancestor_succ_parent] at this)

theorem find_repo_root_go_hit (ex : PyPath → Bool) (cwd : PyPath) :
    ∀ n curr i, i < n → ex ((curr.ancestor i).child ".agent") = true →
    (∀ j, j < i → ex ((curr.ancestor j).child ".agent") = false) →
    find_repo_root_go ex cwd n curr = curr.ancestor i := by
  intro n
  induction n with
  | zero => intro curr i hi _ _; exact absurd hi (Nat.not_lt_zero i)
  | succ k ih =>
    intro curr i hi hhit hmiss
    cases i with
    | zero =>
      simp only [PyPath.ancestor] at hhit ⊢
      rw [find_repo_root_go, hhit]
      simp
    | succ i' =>
      have h0 := hmiss 0 (Nat.succ_pos i')
      simp only [PyPath.ancestor] at h0
      rw [find_repo_root_go, h0]
      simp only [Bool.false_eq_true, if_false]
      by_cases hp : curr.parent = curr
      · exfalso
        have hfix := ancestor_of_fixed curr hp (i' + 1)
        rw [hfix] at hhit
        rw [h0] at hhit
        exact Bool.false_ne_true hhit
      · simp only [hp, if_false]
        rw [ancestor_succ_parent]
        exact ih curr.parent i' (Nat.lt_of_succ_lt_succ hi)
          (by rwa [← ancestor_succ_parent])
          (fun j hj => by
            rw [← ancestor_succ_parent]
            exact hmiss (j + 1) (Nat.succ_lt_succ hj))

theorem find_agent_root_go_fallback (ex : PyPath → Bool) :
    ∀ n curr,
    (∀ i, i < n → ex ((curr.ancestor i).child ".agent") = false ∧
      (ex ((curr.ancestor i).child "skills") = false ∨
       ex ((curr.ancestor i).parent.child ".agent") = false)) →
    find_agent_root_go ex n curr = .rel [".agent"] := by
  intro n
  induction n with
  | zero => intro curr _; rfl
  | succ k ih =>
    intro curr h
    have h0 := h 0 (Nat.succ_pos k)
    simp only [PyPath.ancestor] at h0
    have hb2 : (ex (curr.child "skills") && ex (curr.parent.child ".agent")) = false := by
      rcases h0.2 with h2 | h2 <;> simp [h2]
    rw [find_agent_root_go, h0.1, hb2]
    simp only [Bool.false_eq_true, if_false]
    by_cases hp : curr.parent = curr
    · simp [hp]
    · simp only [hp, if_false]
      exact ih curr.parent (fun i hi => by
        have := h (i + 1) (Nat.succ_lt_succ hi)
        rwa [ancestor_succ_parent] at this)

theorem find_agent_root_go_hit (ex : PyPath → Bool) :
    ∀ n curr i, i < n → ex ((curr.ancestor i).child ".agent") = true →
    (∀ j, j < i → ex ((curr.ancestor j).child ".agent") = false ∧
      (ex ((curr.ancestor j).child "skills") = false ∨
       ex ((curr.ancestor j).parent.child ".agent") = false)) →
    find_agent_root_go ex n curr = (curr.ancestor i).child ".agent" := by
  intro n
  induction n with
  | zero => intro curr i hi _ _; exact absurd hi (Nat.not_lt_zero i)
  | succ k ih =>
    intro curr i hi hhit hmiss
    cases i with
    | zero =>
      simp only [PyPath.ancestor] at hhit ⊢
      rw [find_agent_root_go, hhit]
      simp
    | succ i' =>
      have h0 := hmiss 0 (Nat.succ_pos i')
      simp only [PyPath.ancestor] at h0
      have hb2 : (ex (curr.child "skills") && ex (curr.parent.child ".agent")) = false := by
        rcases h0.2 with h2 | h2 <;> simp [h2]
      rw [find_agent_root_go, h0.1, hb2]
      simp only [Bool.false_eq_true, if_false]
      by_cases hp : curr.parent = curr
      · exfalso
        have hfix := ancestor_of_fixed curr hp (i' + 1)
        rw [hfix] at hhit
        rw [h0.1] at hhit
        exact Bool.false_ne_true hhit
      · simp only [hp, if_false]
        rw [ancestor_succ_parent]
        exact ih curr.parent i' (Nat.lt_of_succ_lt_succ hi)
          (by rwa [← ancestor_succ_parent])
          (fun j hj => by
            rw [← ancestor_succ_parent]
            exact hmiss (j + 1) (Nat.succ_lt_succ hj))

/-- C2: when the skill instruction file is missing or empty, each backend
function returns a failure dict whose error names the missing skill path,
and spawns no subprocess. -/
theorem C2_missing_skill (fs : FS) (proc : Except String ProcOutcome)
    (skill task : String) (repo_root : PyPath) (yolo so : Bool)
    (h : fs.read (skill_file_path repo_root skill) = none ∨
         fs.read (skill_file_path repo_root skill) = some "") :
    run_gemini_backend fs proc skill task repo_root yolo so =
      (Except.ok { success := false, output := none,
                   error := "Skill not found: " ++ (skill_file_path repo_root skill).toStr,
                   full_log := none }, [])
    ∧ run_claude_backend fs proc skill task repo_root yolo so =
      (Except.ok { success := false, output := none,
                   error := "Skill not found: " ++ (skill_file_path repo_root skill).toStr,
                   full_log := none }, []) := by
  have hins : load_skill_instructions fs (skill_file_path repo_root skill) = "" := by
    rcases h with h | h <;> simp [load_skill_instructions, h]
  constructor <;> simp [run_gemini_backend, run_claude_backend, hins]

/-- C2 witness. -/
theorem C2_missing_skill_witness :
    run_gemini_backend emptyFS (Except.ok c2Proc) "nonexistent" "t" c2Root true true =
      (Except.ok { success := false, output := none,
                   error := "Skill not found: /repo2/.agent/skills/superpowers-nonexistent/SKILL.md",
                   full_log := none }, [])
    ∧ run_claude_backend emptyFS (Except.ok c2Proc) "nonexistent" "t" c2Root true true =
      (Except.ok { success := false, output := none,
                   error := "Skill not found: /repo2/.agent/skills/superpowers-nonexistent/SKILL.md",
                   full_log := none }, []) :=
  C2_missing_skill emptyFS (Except.ok c2Proc) "nonexistent" "t" c2Root true true
    (Or.inl rfl)


/-- C5: when the subprocess runs to completion, success is exactly "exit
code zero", the error text is empty on success and "Process failed"
otherwise — for both backends. -/
theorem C5_exit_code (fs : FS) (p : ProcOutcome) (skill task : String)
    (repo_root : PyPath) (yolo so : Bool)
    (hskill : ¬ load_skill_instructions fs (skill_file_path repo_root skill) = "") :
    ((okSuccess (run_gemini_backend fs (Except.ok p) skill task repo_root yolo so).1 =
        some true ↔ p.returncode = 0)
     ∧ (p.returncode = 0 →
        okError (run_gemini_backend fs (Except.ok p) skill task repo_root yolo so).1 =
          some "")
     ∧ (p.returncode ≠ 0 →
        okError (run_gemini_backend fs (Except.ok p) skill task repo_root yolo so).1 =
          some "Process failed"))
    ∧ ((okSuccess (run_claude_backend fs (Except.ok p) skill task repo_root yolo so).1 =
        some true ↔ p.returncode = 0)
     ∧ (p.returncode = 0 →
        okError (run_claude_backend fs (Except.ok p) skill task repo_root yolo so).1 =
          some "")
     ∧ (p.returncode ≠ 0 →
        okError (run_claude_backend fs (Except.ok p) skill task repo_root yolo so).1 =
          some "Process failed")) := by
  refine ⟨⟨?_, ?_, ?_⟩, ⟨?_, ?_, ?_⟩⟩ <;>
    simp [run_gemini_backend, run_claude_backend, hskill, okSuccess, okError] <;>
    intro h <;> simp [h]

/-- C5 witness: exit code 0 succeeds, exit code 1 reports "Process failed". -/
theorem C5_exit_code_witness :
    okSuccess (run_gemini_backend c5FS (Except.ok { returncode := 0, out := "ok" })
        "brainstorm" "t" c5Root true true).1 = some true
    ∧ okError (run_claude_backend c5FS (Except.ok { returncode := 1, out := "bad" })
        "brainstorm" "t" c5Root true true).1 = some "Process failed" :=
  ⟨((C5_exit_code c5FS { returncode := 0, out := "ok" } "brainstorm" "t" c5Root true true
      (by decide)).1.1).mpr rfl,
   ((C5_exit_code c5FS { returncode := 1, out := "bad" } "brainstorm" "t" c5Root true true
      (by decide)).2.2.2) (by decide)⟩

/-- C6: a missing or unparsable config.json yields exactly the default
mapping. -/
theorem C6_load_default (parse : String → Option Config) (fs : FS) (root : PyPath) :
    default_config = [("execution_backend", "gemini")]
    ∧ (fs.read (root.child "config.json") = none →
        load_config parse fs root = default_config)
    ∧ (∀ c, fs.read (root.child "config.json") = some c → parse c = none →
        load_config parse fs root = default_config) := by
  refine ⟨rfl, ?_, ?_⟩
  · intro h; simp [load_config, h]
  · intro c hc hp; simp [load_config, hc, hp]

/-- C6 witness: an absent file and an invalid document both load as the
default. -/
theorem C6_load_default_witness :
    load_config miniParse emptyFS c6Root = default_config
    ∧ load_config miniParse c6FS c6Root = default_config :=
  ⟨(C6_load_default miniParse emptyFS c6Root).2.1 rfl,
   (C6_load_default miniParse c6FS c6Root).2.2 "not json" (by decide) (by decide)⟩

/-- C7: saving then loading on the same root returns the saved mapping,
whenever the json library round-trips that mapping. -/
theorem C7_save_load_roundtrip (dumps : Config → String)
    (parse : String → Option Config) (cfg : Config) (fs : FS) (root : PyPath)
    (h : parse (dumps cfg) = some cfg) :
    load_config parse (save_config dumps cfg fs root) root = cfg := by
  simp [load_config, save_config, h]

/-- C7 witness: the empty mapping round-trips with no keys injected. -/
theorem C7_save_load_roundtrip_witness :
    load_config miniParse (save_config miniDumps [] emptyFS c7Root) c7Root = [] :=
  C7_save_load_roundtrip miniDumps miniParse [] emptyFS c7Root (by decide)

/-- C1 amended: the Gemini backend extracts the substring strictly between
the first start marker and the following end marker (stripped), and returns
the output verbatim when the start marker is absent; the Claude backend
performs no extraction and always returns the captured output verbatim. -/
theorem C1_extraction_amended (fs : FS) (p : ProcOutcome) (skill task : String)
    (repo_root : PyPath) (yolo so : Bool)
    (hskill : ¬ load_skill_instructions fs (skill_file_path repo_root skill) = "") :
    (∀ pre mid post : List Char,
      p.out.toList = pre ++ (START_MARKER.toList ++ (mid ++ (END_MARKER.toList ++ post))) →
      (∀ i, i < pre.length →
        START_MARKER.toList.isPrefixOf (p.out.toList.drop i) = false) →
      (∀ i, i < mid.length →
        END_MARKER.toList.isPrefixOf ((mid ++ (END_MARKER.toList ++ post)).drop i) = false) →
      okOutput (run_gemini_backend fs (Except.ok p) skill task repo_root yolo so).1 =
        some (pyStrip (String.mk mid)))
    ∧ ((∀ i, START_MARKER.toList.isPrefixOf (p.out.toList.drop i) = false) →
      okOutput (run_gemini_backend fs (Except.ok p) skill task repo_root yolo so).1 =
        some p.out)
    ∧ okOutput (run_claude_backend fs (Except.ok p) skill task repo_root yolo so).1 =
        some p.out := by
  refine ⟨?_, ?_, ?_⟩
  · intro pre mid post hdec h1 h2
    have hfirst : findSplit START_MARKER.toList p.out.toList =
        some (pre, mid ++ (END_MARKER.toList ++ post)) := by
      rw [hdec]
      exact findSplit_marker _ _ _ (fun i hi => by rw [← hdec]; exact h1 i hi)
    have hsecond : findSplit END_MARKER.toList (mid ++ (END_MARKER.toList ++ post)) =
        some (mid, post) := findSplit_marker _ _ _ h2
    have hout : okOutput (run_gemini_backend fs (Except.ok p) skill task repo_root yolo so).1 =
        some (extract_result p.out) := by
      simp [run_gemini_backend, hskill, okOutput]
    rw [hout]
    unfold extract_result
    rw [hfirst]
    dsimp only
    rw [hsecond]
  · intro habsent
    have hnone : findSplit START_MARKER.toList p.out.toList = none :=
      findSplit_none _ (by decide) _ habsent
    have hout : okOutput (run_gemini_backend fs (Except.ok p) skill task repo_root yolo so).1 =
        some (extract_result p.out) := by
      simp [run_gemini_backend, hskill, okOutput]
    rw [hout]
    unfold extract_result
    rw [hnone]
  · simp [run_claude_backend, hskill, okOutput]

/-- C1 witness: the spec's own example, via the Gemini backend. -/
theorem C1_extraction_witness :
    okOutput (run_gemini_backend c1FS (Except.ok c1Proc) "workflow" "t" c1Root
        true true).1 = some "DONE" :=
  (C1_extraction_amended c1FS c1Proc "workflow" "t" c1Root true true (by decide)).1
    "noise\n".toList "\nDONE\n".toList "\nmore noise".toList
    (by decide) (by decide) (by decide)

/-- C1 counterexample to the original claim: a Claude-backend call whose
subprocess output contains both sentinel markers returns the full output
verbatim, not the extracted substring "DONE". -/
theorem C1_claude_counterexample :
    okOutput (run_claude_backend c1FS (Except.ok c1Proc) "workflow" "t" c1Root
        true true).1 =
      some "noise\n---SUBAGENT-RESULT-START---\nDONE\n---SUBAGENT-RESULT-END---\nmore noise"
    ∧ ("noise\n---SUBAGENT-RESULT-START---\nDONE\n---SUBAGENT-RESULT-END---\nmore noise" : String)
        ≠ "DONE" := by
  constructor
  · decide
  · decide


/-- C3 amended: an exception raised during the backend dispatch/execution
(steps 4-5, inside the `try`) is caught and converted into a failure result
carrying the exception message; an exception raised while preparing the log
(steps 2-3, before the `try`) escapes `execute_task` to its caller. -/
theorem C3_exception_amended (fs : FS) (parse : String → Option Config)
    (proc : Except String ProcOutcome) (ts sid skill task : String)
    (repo_root : PyPath) (yolo bg : Bool) :
    ((∀ e, proc = Except.error e →
        ¬ load_skill_instructions fs (skill_file_path repo_root skill) = "" →
        execute_task fs parse proc none ts sid skill task repo_root yolo bg =
          (Except.ok
             { success := false, output := "", error := e,
               log_file := (log_file_of repo_root (backend_of parse fs repo_root)
                   skill ts sid).toStr,
               subagent_id := sid, backend := backend_of parse fs repo_root },
           [Event.openLog])))
    ∧ (∀ e, execute_task fs parse proc (some e) ts sid skill task repo_root yolo bg =
        (Except.error e, [])) := by
  constructor
  · intro e he hskill
    subst he
    by_cases hb : backend_of parse fs repo_root = "claude" <;>
      simp [execute_task, run_claude_backend, run_gemini_backend, hb, hskill]
  · intro e
    rfl

/-- C3 witness: a failed spawn is converted into a failure result, while a
failed log-directory creation escapes as an exception. -/
theorem C3_exception_witness :
    execute_task c3FS miniParse (Except.error "spawn failed") none "T" "I"
        "workflow" "t" c3Root true false =
      (Except.ok
         { success := false, output := "", error := "spawn failed",
           log_file := (log_file_of c3Root (backend_of miniParse c3FS c3Root)
               "workflow" "T" "I").toStr,
           subagent_id := "I", backend := backend_of miniParse c3FS c3Root },
       [Event.openLog])
    ∧ execute_task c3FS miniParse (Except.ok c3Proc) (some "boom") "T" "I"
        "workflow" "t" c3Root true false = (Except.error "boom", []) :=
  ⟨(C3_exception_amended c3FS miniParse (Except.error "spawn failed") "T" "I"
      "workflow" "t" c3Root true false).1 "spawn failed" rfl (by decide),
   (C3_exception_amended c3FS miniParse (Except.ok c3Proc) "T" "I"
      "workflow" "t" c3Root true false).2 "boom"⟩

/-- C3 counterexample to the original claim: an exception in step 3
(preparing the log directory) is NOT caught — `execute_task` lets it escape
to its caller. -/
theorem C3_escape_counterexample :
    (execute_task c3FS miniParse (Except.ok c3Proc) (some "mkdir failed") "T" "I"
        "workflow" "t" c3Root true false).1 = Except.error "mkdir failed" := rfl




/-- C4 amended: whenever the skill file is found (and steps 2-3 do not
raise), the log file is opened before anything else the call does — in
particular before any subprocess is spawned — so it exists after the call,
even when the result is a failure. -/
theorem C4_log_amended (fs : FS) (parse : String → Option Config)
    (proc : Except String ProcOutcome) (ts sid skill task : String)
    (repo_root : PyPath) (yolo bg : Bool)
    (hskill : ¬ load_skill_instructions fs (skill_file_path repo_root skill) = "") :
    ((execute_task fs parse proc none ts sid skill task repo_root yolo bg).2).head? =
      some Event.openLog := by
  by_cases hb : backend_of parse fs repo_root = "claude" <;>
    rcases proc with e | p <;>
    simp [execute_task, run_claude_backend, run_gemini_backend, hb, hskill]

/-- C4 witness. -/
theorem C4_log_amended_witness :
    ((execute_task c4FS miniParse (Except.ok c4Proc) none "T" "I" "planner" "t"
        c4Root true false).2).head? = some Event.openLog :=
  C4_log_amended c4FS miniParse (Except.ok c4Proc) "T" "I" "planner" "t" c4Root
    true false (by decide)

/-- C4 counterexample to the original claim: with a missing skill the
backend returns before opening the log, so the call completes (with a
failure result) having produced no events at all — no log file exists. -/
theorem C4_missing_skill_counterexample :
    (execute_task emptyFS miniParse (Except.ok c4Proc) none "T" "I" "nonexistent"
        "t" c4Root true false).2 = [] := rfl




/-- C8 amended: every call spawns at most one subprocess, and exactly one
when the skill file is found, no step-2/3 exception is raised and the spawn
itself does not raise. -/
theorem C8_spawn_amended (fs : FS) (parse : String → Option Config)
    (proc : Except String ProcOutcome) (prepExc : Option String)
    (ts sid skill task : String) (repo_root : PyPath) (yolo bg : Bool) :
    ((execute_task fs parse proc prepExc ts sid skill task repo_root yolo
        bg).2.countP Event.isSpawn ≤ 1)
    ∧ (prepExc = none →
       ¬ load_skill_instructions fs (skill_file_path repo_root skill) = "" →
       ∀ p, proc = Except.ok p →
       (execute_task fs parse proc prepExc ts sid skill task repo_root yolo
          bg).2.countP Event.isSpawn = 1) := by
  constructor
  · rcases prepExc with _ | e
    · by_cases hb : backend_of parse fs repo_root = "claude" <;>
        by_cases hs : load_skill_instructions fs (skill_file_path repo_root skill) = "" <;>
        rcases proc with e | p <;>
        simp [execute_task, run_claude_backend, run_gemini_backend, hb, hs,
          Event.isSpawn]
    · simp [execute_task]
  · intro hprep hskill p hp
    subst hprep; subst hp
    by_cases hb : backend_of parse fs repo_root = "claude" <;>
      simp [execute_task, run_claude_backend, run_gemini_backend, hb, hskill,
        Event.isSpawn]

/-- C8 witness. -/
theorem C8_spawn_amended_witness :
    (execute_task c8FS miniParse (Except.ok c8Proc) none "T" "I" "writer" "t"
        c8Root true false).2.countP Event.isSpawn = 1 :=
  (C8_spawn_amended c8FS miniParse (Except.ok c8Proc) none "T" "I" "writer" "t"
      c8Root true false).2 rfl (by decide) c8Proc rfl

/-- C8 counterexample to the original claim: a call with a missing skill
file completes having spawned zero subprocesses, not exactly one. -/
theorem C8_zero_spawn_counterexample :
    (execute_task emptyFS miniParse (Except.ok c8Proc) none "T" "I" "missing"
        "t" c8Root true false).2.countP Event.isSpawn = 0 := rfl


/-- C10: any configured backend value other than exactly "claude"
(including unrecognized names and a missing key) dispatches to the Gemini
backend, and no error is raised. -/
theorem C10_dispatch_default (fs : FS) (parse : String → Option Config)
    (ts sid skill task : String) (repo_root : PyPath) (yolo bg : Bool)
    (p : ProcOutcome)
    (hb : backend_of parse fs repo_root ≠ "claude")
    (hskill : ¬ load_skill_instructions fs (skill_file_path repo_root skill) = "") :
    (execute_task fs parse (Except.ok p) none ts sid skill task repo_root yolo
        bg).2 = [Event.openLog, Event.spawn "gemini"]
    ∧ (execute_task fs parse (Except.ok p) none ts sid skill task repo_root yolo
        bg).1 =
      Except.ok
        { success := p.returncode == 0, output := extract_result p.out,
          error := if p.returncode == 0 then "" else "Process failed",
          log_file := (log_file_of repo_root (backend_of parse fs repo_root)
              skill ts sid).toStr,
          subagent_id := sid, backend := backend_of parse fs repo_root } := by
  constructor <;> simp [execute_task, run_gemini_backend, hb, hskill]

/-- C10 witness: a configuration naming the unrecognized backend "foo"
dispatches to Gemini and completes without an escaping error. -/
theorem C10_dispatch_default_witness :
    (execute_task c10FS c10Parse (Except.ok c10Proc) none "T" "I" "workflow"
        "t" c10Root true false).2 = [Event.openLog, Event.spawn "gemini"]
    ∧ (execute_task c10FS c10Parse (Except.ok c10Proc) none "T" "I" "workflow"
        "t" c10Root true false).1 =
      Except.ok
        { success := c10Proc.returncode == 0, output := extract_result c10Proc.out,
          error := if c10Proc.returncode == 0 then "" else "Process failed",
          log_file := (log_file_of c10Root (backend_of c10Parse c10FS c10Root)
              "workflow" "T" "I").toStr,
          subagent_id := "I", backend := backend_of c10Parse c10FS c10Root } :=
  C10_dispatch_default c10FS c10Parse "T" "I" "workflow" "t" c10Root true false
    c10Proc (by decide) (by decide)

/-- C9 amended: both walks inspect at most 10 ancestor levels.  When a
marker is first found at level `i` (with neither branch firing earlier),
`find_agent_root` returns that marker directory itself while
`find_repo_root` returns the directory containing it; when nothing is found
within the bound, `find_agent_root` falls back to the relative path
`.agent` but `find_repo_root` falls back to the (absolute) current working
directory.  No error is raised in any case. -/
theorem C9_root_walk_amended (ex : PyPath → Bool) (start cwd : PyPath) :
    ((∀ i, i < 10 → ex ((start.ancestor i).child ".agent") = false ∧
        (ex ((start.ancestor i).child "skills") = false ∨
         ex ((start.ancestor i).parent.child ".agent") = false)) →
      find_agent_root ex start = PyPath.rel [".agent"])
    ∧ ((∀ i, i < 10 → ex ((start.ancestor i).child ".agent") = false) →
      find_repo_root ex start cwd = cwd)
    ∧ (∀ i, i < 10 → ex ((start.ancestor i).child ".agent") = true →
      (∀ j, j < i → ex ((start.ancestor j).child ".agent") = false ∧
        (ex ((start.ancestor j).child "skills") = false ∨
         ex ((start.ancestor j).parent.child ".agent") = false)) →
      find_agent_root ex start = (start.ancestor i).child ".agent")
    ∧ (∀ i, i < 10 → ex ((start.ancestor i).child ".agent") = true →
      (∀ j, j < i → ex ((start.ancestor j).child ".agent") = false) →
      find_repo_root ex start cwd = start.ancestor i) := by
  refine ⟨?_, ?_, ?_, ?_⟩
  · intro h
    exact find_agent_root_go_fallback ex 10 start h
  · intro h
    exact find_repo_root_go_fallback ex cwd 10 start h
  · intro i hi hhit hmiss
    exact find_agent_root_go_hit ex 10 start i hi hhit hmiss
  · intro i hi hhit hmiss
    exact find_repo_root_go_hit ex cwd 10 start i hi hhit hmiss

/-- C9 witness: with the marker one level up, `find_agent_root` returns the
marker directory and `find_repo_root` its containing directory; with no
marker anywhere, both fall back. -/
theorem C9_root_walk_witness :
    find_agent_root c9ex (PyPath.abs ["a", "b"]) = PyPath.abs ["a", ".agent"]
    ∧ find_repo_root c9ex (PyPath.abs ["a", "b"]) (PyPath.abs ["cwd"]) =
        PyPath.abs ["a"]
    ∧ find_agent_root (fun _ => false) (PyPath.abs ["a", "b"]) =
        PyPath.rel [".agent"]
    ∧ find_repo_root (fun _ => false) (PyPath.abs ["a", "b"]) (PyPath.abs ["cwd"]) =
        PyPath.abs ["cwd"] :=
  ⟨(C9_root_walk_amended c9ex (PyPath.abs ["a", "b"]) (PyPath.abs ["cwd"])).2.2.1
      1 (by decide) (by decide) (by decide),
   (C9_root_walk_amended c9ex (PyPath.abs ["a", "b"]) (PyPath.abs ["cwd"])).2.2.2
      1 (by decide) (by decide) (by decide),
   (C9_root_walk_amended (fun _ => false) (PyPath.abs ["a", "b"])
      (PyPath.abs ["cwd"])).1 (by decide),
   (C9_root_walk_amended (fun _ => false) (PyPath.abs ["a", "b"])
      (PyPath.abs ["cwd"])).2.1 (by decide)⟩

/-- C9 counterexample to the original claim: when no marker directory is
found within the bound, `find_repo_root` does not return a relative
fallback path — it returns the absolute current working directory. -/
theorem C9_absolute_fallback_counterexample :
    find_repo_root (fun _ => false) (PyPath.abs ["home", "user"])
        (PyPath.abs ["cwd"]) = PyPath.abs ["cwd"]
    ∧ (PyPath.abs ["cwd"]).isRelative = false := by
  constructor
  · decide
  · decide
